import Mathlib

/-!
Shallow embedding of the adaptive cache / burst-mode / reconciliation
subsystem of the repository (src/api_manager.py, src/core.py,
src/sheets/taken.py, src/config.py), together with theorems settling the
specification claims about it.

Modelling conventions:
* `datetime.now()` is passed explicitly as a rational-number timestamp
  (seconds); durations are rationals.
* Python dict values that may be either strings or integers are modelled by
  `PyVal`; `str(...)` is `pyStr`, Python truthiness of such a value is
  `pyFalsy`.
* Optional fields (`None`) are `Option`.
* Python `set` is `Finset`.
* Logging calls are not modelled except where a claim mentions them; in that
  case the model records a boolean flag for whether the warning call runs.
-/

namespace Werkeir

/-- Value of a Python dict field that in the source may hold a string or an
integer (record identifiers).  The batch parser in
`OptimizedAPIManager.fetch_all_accounts_batch` stringifies every field, but
lookups may be called with numeric identifiers, and
`SmartCacheManager.get_account_by_id` coerces both sides with `str(...)`. -/
inductive PyVal where
  | str (s : String)
  | int (n : Int)
deriving DecidableEq

/-- Python `str(...)` on a `PyVal`. -/
def pyStr : PyVal → String
  | .str s => s
  | .int n => toString n

/-- Python truthiness test `not v` on a `PyVal`: the empty string and the
integer 0 are falsy. -/
def pyFalsy : PyVal → Bool
  | .str s => s = ""
  | .int n => n = 0

/-- Python `str.upper()`, modelled characterwise over the string's characters
(the status vocabulary is ASCII). -/
def pyUpper (s : String) : String := ⟨s.data.map Char.toUpper⟩

/-- Whitespace recognised when stripping a numeric string. -/
def isPySpace (c : Char) : Bool :=
  c = ' ' ∨ c = '\t' ∨ c = '\n' ∨ c = '\r' ∨ c = '\x0b' ∨ c = '\x0c'

/-- Strip leading and trailing whitespace from a character list. -/
def trimChars (cs : List Char) : List Char :=
  ((cs.dropWhile isPySpace).reverse.dropWhile isPySpace).reverse

/-- One parsed account record, as produced by the `INDEX_MAP` parsing loop in
`OptimizedAPIManager.fetch_all_accounts_batch` (src/api_manager.py).  Only the
fields the claims touch are carried. -/
structure Account where
  idAccount : PyVal
  Sender : String
  Status : String
  Group : String
  Taken : String
deriving DecidableEq

/-! Constants from src/config.py. -/

/-- Constant `CACHE_TTL_MIN = 60` (src/config.py). -/
def CACHE_TTL_MIN : ℚ := 60

/-- Constant `CACHE_TTL_NORMAL = 90` (src/config.py). -/
def CACHE_TTL_NORMAL : ℚ := 90

/-- Constant `CACHE_TTL_MAX = 120` (src/config.py). -/
def CACHE_TTL_MAX : ℚ := 120

/-- Constant `BURST_MODE_DURATION = 60` (src/config.py). -/
def BURST_MODE_DURATION : ℚ := 60

/-- Constant `FINAL_STATUSES` (src/config.py). -/
def FINAL_STATUSES : List String :=
  ["AVAILABLE", "ACTIVE", "WRONG DETAILS", "BACKUP CODE WRONG", "CODE SENT",
   "DISABLED", "NO TRANSFER ACCESS", "TRANSFER LIST IS FULL", "NO CLUB",
   "GENERAL LOGIN ERROR", "ERROR", "BLOCKED", "AMOUNT TAKEN"]

/-- Constant `TRANSITIONAL_STATUSES` (src/config.py). -/
def TRANSITIONAL_STATUSES : List String :=
  ["LOGGING", "LOGGED", "LOGGED IN", "WAITING", "NEW ACCOUNT"]

/-- Mutable state of `SmartCacheManager` (src/api_manager.py lines 43-61).
The unused field `last_changes_count` (written only by `__init__`) is
omitted. -/
structure SmartCacheState where
  cache : Option (List Account)
  cache_timestamp : Option ℚ
  cache_ttl : ℚ
  burst_mode_active : Bool
  burst_mode_started : Option ℚ
  consecutive_quiet_cycles : ℕ
  last_successful_cache : Option (List Account)
  last_successful_timestamp : Option ℚ
  burst_targets : Finset PyVal

/-- Initial state of `SmartCacheManager.__init__` (src/api_manager.py lines 43-61). -/
def SmartCacheState.init : SmartCacheState :=
  { cache := none, cache_timestamp := none, cache_ttl := CACHE_TTL_NORMAL,
    burst_mode_active := false, burst_mode_started := none,
    consecutive_quiet_cycles := 0, last_successful_cache := none,
    last_successful_timestamp := none, burst_targets := ∅ }

/-- Model of `SmartCacheManager.is_cache_valid` (src/api_manager.py lines 63-73):
returns `False` if the cache or its timestamp is `None`, `False` while burst
mode is active, and otherwise compares the age against the current TTL. -/
def is_cache_valid (s : SmartCacheState) (now : ℚ) : Bool :=
  match s.cache, s.cache_timestamp with
  | some _, some ts =>
      if s.burst_mode_active then false
      else decide (now - ts < s.cache_ttl)
  | _, _ => false

/-- Model of `SmartCacheManager.activate_burst_mode` (src/api_manager.py lines 75-85):
if burst mode is inactive, flip it on and stamp the start time; always add the
account id to the target set. -/
def activate_burst_mode (s : SmartCacheState) (account_id : PyVal) (now : ℚ) :
    SmartCacheState :=
  let s1 :=
    if s.burst_mode_active then s
    else { s with burst_mode_active := true, burst_mode_started := some now }
  { s1 with burst_targets := insert account_id s1.burst_targets }

/-- Model of `SmartCacheManager.check_burst_mode` (src/api_manager.py lines 87-98):
if burst mode is active and its start time is at least `BURST_MODE_DURATION`
seconds old, deactivate it and clear the whole target set.  (The source would
raise on `burst_mode_started = None` while active; that state is unreachable
and modelled as a no-op here.) -/
def check_burst_mode (s : SmartCacheState) (now : ℚ) : SmartCacheState :=
  if s.burst_mode_active then
    match s.burst_mode_started with
    | some started =>
        if BURST_MODE_DURATION ≤ now - started then
          { s with burst_mode_active := false, burst_mode_started := none,
                   burst_targets := ∅ }
        else s
    | none => s
  else s

/-- Model of `SmartCacheManager.adjust_ttl` (src/api_manager.py lines 100-133):
three-level adaptive TTL with a quiet-cycle counter. -/
def adjust_ttl (s : SmartCacheState) (changes_detected : ℕ) : SmartCacheState :=
  if changes_detected ≥ 5 then
    { s with cache_ttl := CACHE_TTL_MIN, consecutive_quiet_cycles := 0 }
  else if changes_detected ≥ 2 then
    { s with cache_ttl := CACHE_TTL_NORMAL, consecutive_quiet_cycles := 0 }
  else
    let q := s.consecutive_quiet_cycles + 1
    if q ≥ 3 then
      { s with consecutive_quiet_cycles := q, cache_ttl := CACHE_TTL_MAX }
    else
      { s with consecutive_quiet_cycles := q }

/-- Model of `SmartCacheManager.update_cache` (src/api_manager.py lines 135-147).  On
success, replace the snapshot and stamp both timestamps with `now`.  On
failure, the source tests `if self.last_successful_cache:` — Python
truthiness, so an *empty* last successful snapshot takes the no-op branch —
and otherwise restores the last successful snapshot together with its own
timestamp. -/
def update_cache (s : SmartCacheState) (new_data : List Account)
    (success : Bool) (now : ℚ) : SmartCacheState :=
  if success then
    { s with cache := some new_data, cache_timestamp := some now,
             last_successful_cache := some new_data,
             last_successful_timestamp := some now }
  else
    match s.last_successful_cache with
    | some l =>
        if l = [] then s
        else { s with cache := some l,
                      cache_timestamp := s.last_successful_timestamp }
    | none => s

/-- Model of `SmartCacheManager.get_account_by_id` (src/api_manager.py lines 153-164):
`if not self.cache` treats both `None` and the empty list as absent; the scan
compares `str(account.get("idAccount", ""))` with `str(account_id)` and
returns the first match. -/
def get_account_by_id (cache : Option (List Account)) (account_id : PyVal) :
    Option Account :=
  match cache with
  | none => none
  | some [] => none
  | some l => l.find? (fun a => pyStr a.idAccount == pyStr account_id)

/-! Extraction-processing queue (src/sheets/taken.py). -/

/-- One entry of `data/Taken.json`, as built by `add_to_taken_queue`
(src/sheets/taken.py lines 76-83). -/
structure TakenItem where
  id : PyVal
  email : String
  status : String
  taken : String
  added_at : ℚ
deriving DecidableEq

/-- Model of `add_to_taken_queue` (src/sheets/taken.py lines 54-93), with the loaded
queue and the clock passed explicitly: drop every existing entry sharing the
account id, then append the new entry. -/
def add_to_taken_queue (items : List TakenItem) (account_id : PyVal)
    (email status taken_value : String) (now : ℚ) : List TakenItem :=
  (items.filter fun item => item.id ≠ account_id) ++
    [{ id := account_id, email := email, status := status,
       taken := taken_value, added_at := now }]

/-! Tracked ("monitored") records (src/core.py). -/

/-- Source tag stored by the auto-discovery branch of `continuous_monitor`
(src/core.py line 629, comment `auto-discovered = manual`); the specification
calls this origin "system-discovered". -/
def originSystemDiscovered : String := "manual"

/-- Source tag stored by `wait_for_status_change` admissions (src/core.py
lines 457 and 495, `source="bot"`); the specification calls this origin
"externally-requested". -/
def originExternallyRequested : String := "bot"

/-- One value of the `monitored_accounts.json` mapping, as written by
`add_monitored_account` (src/core.py lines 62-91); the fields the claims
touch. -/
structure TrackedAccount where
  email : String
  account_id : PyVal
  last_known_status : String
  chat_id : Int
  source : String
deriving DecidableEq

/-- State threaded through the auto-discovery scan of `continuous_monitor`
(src/core.py lines 597-637): the set `existing_ids` plus the persisted
tracked-record collection (modelled as the list of its values). -/
structure DiscoveryState where
  existing_ids : Finset PyVal
  monitored : List TrackedAccount

/-- One iteration of the auto-discovery `for account in all_accounts` loop
(src/core.py lines 605-633): skip when the id is falsy, already tracked, the
upper-cased status is not `AVAILABLE`, or the group differs from the target
group; otherwise append a tracked record with status `AVAILABLE`,
`chat_id = default_chat_id or 0` and source `"manual"`, and add the id to
`existing_ids`. -/
def discovery_step (default_group_name : String) (default_chat_id : Option Int)
    (st : DiscoveryState) (account : Account) : DiscoveryState :=
  if pyFalsy account.idAccount = true ∨ account.idAccount ∈ st.existing_ids ∨
      pyUpper account.Status ≠ "AVAILABLE" ∨
      account.Group ≠ default_group_name then
    st
  else
    { existing_ids := insert account.idAccount st.existing_ids,
      monitored := st.monitored ++
        [{ email := account.Sender, account_id := account.idAccount,
           last_known_status := "AVAILABLE",
           chat_id := default_chat_id.getD 0,
           source := originSystemDiscovered }] }

/-- The whole auto-discovery scan of one reconciliation cycle (src/core.py
lines 604-633): fold `discovery_step` over the fetched snapshot. -/
def auto_discovery (default_group_name : String) (default_chat_id : Option Int)
    (all_accounts : List Account) (st : DiscoveryState) : DiscoveryState :=
  all_accounts.foldl (discovery_step default_group_name default_chat_id) st

/-! Python float() parsing, for the `float(taken_value) > 0` test in
`continuous_monitor` (src/core.py line 674). -/

/-- Numeric value of a list of decimal digit characters. -/
def digitsVal (cs : List Char) : ℕ :=
  cs.foldl (fun acc c => 10 * acc + (c.toNat - 48)) 0

/-- Models Python `float(s)` on a string, restricted to plain decimal
literals: optional surrounding whitespace, an optional sign, and digits with
an optional fractional part (`"12"`, `"-3.5"`, `"7."`, `".25"`).  Exponent,
infinity/nan and underscore forms are not modelled, and the value is kept as
an exact rational (no IEEE rounding).  Returns `none` where `float(...)`
raises `ValueError`. -/
def pyFloat? (s : String) : Option ℚ :=
  let cs := trimChars s.data
  let signed : Bool × List Char :=
    match cs with
    | '-' :: rest => (true, rest)
    | '+' :: rest => (false, rest)
    | _ => (false, cs)
  let intPart := signed.2.takeWhile Char.isDigit
  let rest := signed.2.dropWhile Char.isDigit
  let mag : Option ℚ :=
    match rest with
    | [] =>
        if intPart = [] then none
        else some (digitsVal intPart : ℚ)
    | '.' :: frac =>
        if frac.all Char.isDigit ∧ (intPart ≠ [] ∨ frac ≠ []) then
          some (mkRat (digitsVal intPart * 10 ^ frac.length + digitsVal frac)
            (10 ^ frac.length))
        else none
    | _ => none
  mag.map fun m => if signed.1 then -m else m

/-- Observable outcome of the status-changed branch of `continuous_monitor`
for one tracked record (src/core.py lines 662-712): the extraction queue
after the branch, whether the invalid-Taken warning ran, the status value
persisted by `update_monitored_account_status`, and whether
`send_status_notification` was invoked. -/
structure ChangeOutcome where
  taken_queue : List TakenItem
  logged_invalid_taken : Bool
  persisted_status : String
  notified : Bool
deriving DecidableEq

/-- The status-changed branch of `continuous_monitor` (src/core.py lines
662-712), given the already upper-cased new status.  When the new status is
`AMOUNT TAKEN` or `DISABLED`, the code runs `float(taken_value) > 0` inside
`try`: a positive parse enqueues via `add_to_taken_queue` with the status'
spaces replaced by underscores; a non-positive parse falls through silently;
a parse failure is caught and logged.  The status is then persisted and the
notification sent unconditionally. -/
def handle_status_change (taken_queue : List TakenItem) (account_id : PyVal)
    (email : String) (current_status : String) (account_info : Account)
    (now : ℚ) : ChangeOutcome :=
  let step : List TakenItem × Bool :=
    if current_status = "AMOUNT TAKEN" ∨ current_status = "DISABLED" then
      match pyFloat? account_info.Taken with
      | some v =>
          if 0 < v then
            (add_to_taken_queue taken_queue account_id email
              (current_status.replace " " "_") account_info.Taken now, false)
          else (taken_queue, false)
      | none => (taken_queue, true)
    else (taken_queue, false)
  { taken_queue := step.1, logged_invalid_taken := step.2,
    persisted_status := current_status, notified := true }

/-! The Phase-B convergence loop of `wait_for_status_change`
(src/core.py lines 361-498). -/

/-- How the Phase-B attempt loop of `wait_for_status_change` ends: either an
attempt observed a record whose upper-cased status is final (the early-return
branch, src/core.py lines 442-465), or the attempt budget ran out with
`account_info` holding the result of the last executed lookup (src/core.py
lines 481-498). -/
inductive PhaseBOutcome where
  | finalStatus (info : Account)
  | exhausted (last_info : Option Account)
deriving DecidableEq

/-- The Phase-B `for attempt in range(1, max_attempts + 1)` loop of
`wait_for_status_change` (src/core.py lines 366-479), abstracted over the
trace of per-attempt `search_sender_by_id` results.  A `none` lookup
overwrites `account_info` with `None` and retries; a record with a final
status ends the loop; a transitional/unknown status keeps polling.  An empty
remaining trace is budget exhaustion. -/
def phaseB_loop (lookups : List (Option Account)) (account_info : Option Account) :
    PhaseBOutcome :=
  match lookups with
  | [] => .exhausted account_info
  | none :: rest => phaseB_loop rest none
  | some r :: rest =>
      if pyUpper r.Status ∈ FINAL_STATUSES then .finalStatus r
      else phaseB_loop rest (some r)

/-- The burst-mode teardown a finishing watch session performs, at both exit
sites of `wait_for_status_change` (src/core.py lines 461-463 on a final
status, lines 484-487 at exhaustion): set `burst_mode_active = False` and
`discard` only the session's own account id from `burst_targets`. -/
def session_finish_burst (s : SmartCacheState) (account_id : PyVal) :
    SmartCacheState :=
  { s with burst_mode_active := false,
           burst_targets := s.burst_targets.erase account_id }

/-- The admission check both exit sites of `wait_for_status_change` apply
(src/core.py lines 449-459 and 489-495): if the record's upper-cased status is
`AVAILABLE` and its group equals the target group exactly, append a tracked
record with source `"bot"`; otherwise leave the tracked set unchanged. -/
def admission_add (monitored : List TrackedAccount) (email : String)
    (account_id : PyVal) (chat_id : Int) (default_group_name : String)
    (info : Account) : List TrackedAccount :=
  if pyUpper info.Status = "AVAILABLE" ∧ info.Group = default_group_name then
    monitored ++
      [{ email := email, account_id := account_id,
         last_known_status := pyUpper info.Status, chat_id := chat_id,
         source := originExternallyRequested }]
  else monitored

/-- Result of a watch session's exit code: the cache state after burst
teardown, the tracked-record collection after the admission check, and the
returned pair `(success, record)`. -/
structure SessionExit where
  cache : SmartCacheState
  monitored : List TrackedAccount
  success : Bool
  result : Option Account

/-- The budget-exhaustion epilogue of `wait_for_status_change` (src/core.py
lines 481-498): deactivate burst for this session, then, if the variable
`account_info` (the last lookup's result) holds a record, re-apply the
admission check against it and return `(True, account_info)`; otherwise
return `(False, None)`. -/
def exhaustion_epilogue (s : SmartCacheState) (monitored : List TrackedAccount)
    (email : String) (account_id : PyVal) (chat_id : Int)
    (default_group_name : String) (account_info : Option Account) :
    SessionExit :=
  let s1 := session_finish_burst s account_id
  match account_info with
  | some info =>
      { cache := s1,
        monitored := admission_add monitored email account_id chat_id
          default_group_name info,
        success := true, result := some info }
  | none =>
      { cache := s1, monitored := monitored, success := false, result := none }

/-- The final-status epilogue of `wait_for_status_change` (src/core.py lines
442-465): apply the admission check to the observed record, deactivate burst
for this session, and return `(True, account_info)`. -/
def final_status_epilogue (s : SmartCacheState) (monitored : List TrackedAccount)
    (email : String) (account_id : PyVal) (chat_id : Int)
    (default_group_name : String) (info : Account) : SessionExit :=
  { cache := session_finish_burst s account_id,
    monitored := admission_add monitored email account_id chat_id
      default_group_name info,
    success := true, result := some info }

/-! Concrete records and states used to instantiate the theorems. -/

/-- Sample available record in group `"G"`. -/
def exAvailableG : Account :=
  { idAccount := .str "10", Sender := "ten@x.com", Status := "AVAILABLE",
    Group := "G", Taken := "0" }

/-- Sample available record in a different group. -/
def exAvailableOther : Account :=
  { idAccount := .str "9", Sender := "nine@x.com", Status := "AVAILABLE",
    Group := "OTHER", Taken := "0" }

/-- Sample record with a transitional status. -/
def exLogging : Account :=
  { idAccount := .str "7", Sender := "seven@x.com", Status := "LOGGING",
    Group := "G", Taken := "0" }

/-- Sample record with a negative Taken value and an extraction status. -/
def exNegativeTaken : Account :=
  { idAccount := .str "7", Sender := "seven@x.com", Status := "AMOUNT TAKEN",
    Group := "G", Taken := "-5" }

/-- Sample record with a positive Taken value and an extraction status. -/
def exTaken1500 : Account :=
  { idAccount := .str "7", Sender := "seven@x.com", Status := "AMOUNT TAKEN",
    Group := "G", Taken := "1500" }

/-- Sample cache state with burst mode active and two burst targets. -/
def exBurstState : SmartCacheState :=
  { cache := some [exAvailableG], cache_timestamp := some 0,
    cache_ttl := CACHE_TTL_NORMAL, burst_mode_active := true,
    burst_mode_started := some 0, consecutive_quiet_cycles := 0,
    last_successful_cache := none, last_successful_timestamp := none,
    burst_targets := {PyVal.str "A", PyVal.str "B"} }

/-- Sample cache state whose last successful snapshot is the *empty* list:
a prior update succeeded with no records, then the cache was invalidated
(as `OptimizedAPIManager.add_sender` does, src/api_manager.py lines 400-401). -/
def exEmptyGoodState : SmartCacheState :=
  { cache := none, cache_timestamp := none, cache_ttl := CACHE_TTL_NORMAL,
    burst_mode_active := false, burst_mode_started := none,
    consecutive_quiet_cycles := 0, last_successful_cache := some [],
    last_successful_timestamp := some 5, burst_targets := ∅ }

/-- Sample cache state with a non-empty last successful snapshot and a
cleared current cache. -/
def exGoodState : SmartCacheState :=
  { cache := none, cache_timestamp := none, cache_ttl := CACHE_TTL_NORMAL,
    burst_mode_active := false, burst_mode_started := none,
    consecutive_quiet_cycles := 0,
    last_successful_cache := some [exAvailableG],
    last_successful_timestamp := some 3, burst_targets := ∅ }

/-!
Theorems.
-/

/-- C1: `is_cache_valid` returns false if no fetch has ever succeeded (cache
or fetch timestamp absent); false whenever burst mode is active, regardless
of the snapshot's age; and otherwise true iff `now - fetchedAt < ttl`.  In
particular burst activity implies invalidity. -/
theorem C1_is_cache_valid_characterization (s : SmartCacheState) (now : ℚ) :
    ((s.cache = none ∨ s.cache_timestamp = none) →
      is_cache_valid s now = false) ∧
    (s.burst_mode_active = true → is_cache_valid s now = false) ∧
    (∀ d ts, s.cache = some d → s.cache_timestamp = some ts →
      s.burst_mode_active = false →
      (is_cache_valid s now = true ↔ now - ts < s.cache_ttl)) := by
  rcases hc : s.cache with _ | d <;>
    rcases ht : s.cache_timestamp with _ | ts <;>
      rcases hb : s.burst_mode_active <;>
        simp [is_cache_valid, hc, ht, hb]

/-- C1 witness: on a concrete state with burst mode active, the cache is
reported invalid. -/
theorem C1_is_cache_valid_characterization_witness :
    is_cache_valid exBurstState 10 = false :=
  (C1_is_cache_valid_characterization exBurstState 10).2.1 rfl

/-- C2: `adjust_ttl` sets the TTL to `CACHE_TTL_MIN` and resets the quiet
counter when at least 5 changes are seen, to `CACHE_TTL_NORMAL` with a reset
counter on 2..4 changes, and on 0..1 changes increments the quiet counter,
leaving the TTL unchanged until the counter has reached 3, at which point the
TTL becomes `CACHE_TTL_MAX`; in particular one quiet cycle after a reset
never jumps the TTL to the maximum. -/
theorem C2_adjust_ttl_characterization (s : SmartCacheState) (c : ℕ) :
    (c ≥ 5 → adjust_ttl s c =
      { s with cache_ttl := CACHE_TTL_MIN, consecutive_quiet_cycles := 0 }) ∧
    (2 ≤ c → c ≤ 4 → adjust_ttl s c =
      { s with cache_ttl := CACHE_TTL_NORMAL, consecutive_quiet_cycles := 0 }) ∧
    (c ≤ 1 →
      (adjust_ttl s c).consecutive_quiet_cycles =
        s.consecutive_quiet_cycles + 1 ∧
      (3 ≤ s.consecutive_quiet_cycles + 1 →
        (adjust_ttl s c).cache_ttl = CACHE_TTL_MAX) ∧
      (s.consecutive_quiet_cycles + 1 < 3 →
        (adjust_ttl s c).cache_ttl = s.cache_ttl)) ∧
    (c ≤ 1 → s.consecutive_quiet_cycles = 0 →
      (adjust_ttl s c).cache_ttl = s.cache_ttl) := by
  simp only [adjust_ttl]
  split_ifs with h5 h2 h3
  · exact ⟨fun _ => rfl, fun _ h4 => absurd h5 (by omega),
      fun h1 => absurd h1 (by omega), fun h1 _ => absurd h1 (by omega)⟩
  · exact ⟨fun h => absurd h h5, fun _ _ => rfl,
      fun h1 => absurd h1 (by omega), fun h1 _ => absurd h1 (by omega)⟩
  · exact ⟨fun h => absurd h h5, fun h _ => absurd h (by omega),
      fun _ => ⟨rfl, fun _ => rfl, fun hlt => absurd h3 (by omega)⟩,
      fun _ h0 => absurd h3 (by omega)⟩
  · exact ⟨fun h => absurd h h5, fun h _ => absurd h (by omega),
      fun _ => ⟨rfl, fun h3a => absurd h3a h3, fun _ => rfl⟩,
      fun _ _ => rfl⟩

/-- C2 witness: on the initial state, a cycle with 7 detected changes sets the
TTL to the minimum and resets the quiet counter. -/
theorem C2_adjust_ttl_characterization_witness :
    adjust_ttl SmartCacheState.init 7 =
      { SmartCacheState.init with
          cache_ttl := CACHE_TTL_MIN, consecutive_quiet_cycles := 0 } :=
  (C2_adjust_ttl_characterization SmartCacheState.init 7).1 (by omega)

/-- C3 counterexample: a cache state whose last successful snapshot exists
but is the empty list (a prior update succeeded with no records, then the
current cache was invalidated).  A failed `update_cache` leaves the current
snapshot at `none`, not equal to the existing `last_successful_cache`,
because the source tests Python truthiness (`if self.last_successful_cache:`)
rather than presence. -/
theorem C3_counterexample :
    exEmptyGoodState.last_successful_cache.isSome = true ∧
    (update_cache exEmptyGoodState [] false 10).cache ≠
      exEmptyGoodState.last_successful_cache := by
  refine ⟨rfl, ?_⟩
  simp [update_cache, exEmptyGoodState]

/-- C3 (amended): a failed `update_cache` never modifies
`last_successful_cache` or its timestamp; when the last successful snapshot
exists and is non-empty, the current snapshot becomes that snapshot and
`fetchedAt` becomes the last successful snapshot's own timestamp; when the
last successful snapshot is absent or empty, the whole state is left
unchanged (so the cache can be left pointing at no result even though an
empty `lastGoodSnapshot` exists). -/
theorem C3_update_cache_failure_amended (s : SmartCacheState)
    (d : List Account) (now : ℚ) :
    ((update_cache s d false now).last_successful_cache =
        s.last_successful_cache ∧
      (update_cache s d false now).last_successful_timestamp =
        s.last_successful_timestamp) ∧
    (∀ l, s.last_successful_cache = some l → l ≠ [] →
      (update_cache s d false now).cache = some l ∧
      (update_cache s d false now).cache_timestamp =
        s.last_successful_timestamp) ∧
    ((s.last_successful_cache = none ∨ s.last_successful_cache = some []) →
      update_cache s d false now = s) := by
  refine ⟨?_, ?_, ?_⟩
  · rcases h : s.last_successful_cache with _ | l
    · simp [update_cache, h]
    · rcases hl : decide (l = []) <;> simp_all [update_cache]
  · intro l hl hne
    simp [update_cache, hl, hne]
  · rintro (h | h) <;> simp [update_cache, h]

/-- C3 witness: on a concrete state with a non-empty last successful
snapshot, a failed update restores that snapshot and its timestamp. -/
theorem C3_update_cache_failure_amended_witness :
    (update_cache exGoodState [] false 10).cache = some [exAvailableG] ∧
    (update_cache exGoodState [] false 10).cache_timestamp =
      exGoodState.last_successful_timestamp :=
  (C3_update_cache_failure_amended exGoodState [] 10).2.1 [exAvailableG] rfl
    (by simp)

/-- C4: `activate_burst_mode` always ends with the id in the target set and
the active flag on; when burst was already active it does not touch the start
time (the shared expiry stays anchored to the first activation); when burst
was inactive it stamps the start time at `now`. -/
theorem C4_activate_burst_mode_characterization (s : SmartCacheState)
    (id : PyVal) (now : ℚ) :
    id ∈ (activate_burst_mode s id now).burst_targets ∧
    (activate_burst_mode s id now).burst_mode_active = true ∧
    (activate_burst_mode s id now).burst_targets = insert id s.burst_targets ∧
    (s.burst_mode_active = true →
      (activate_burst_mode s id now).burst_mode_started =
        s.burst_mode_started) ∧
    (s.burst_mode_active = false →
      (activate_burst_mode s id now).burst_mode_started = some now) := by
  rcases hb : s.burst_mode_active <;> simp [activate_burst_mode, hb]

/-- C7: the extraction-processing queue holds at most one live entry per
identifier: `add_to_taken_queue` removes every existing entry carrying the
enqueued identifier before appending the new one, leaves entries for all
other identifiers unchanged, and afterwards the enqueued identifier has
exactly one entry — the new one. -/
theorem C7_add_to_taken_queue_spec (items : List TakenItem) (account_id : PyVal)
    (email status taken_value : String) (now : ℚ) :
    (({ id := account_id, email := email, status := status,
        taken := taken_value, added_at := now } : TakenItem) ∈
      add_to_taken_queue items account_id email status taken_value now) ∧
    (∀ it ∈ add_to_taken_queue items account_id email status taken_value now,
      it.id = account_id →
      it = { id := account_id, email := email, status := status,
             taken := taken_value, added_at := now }) ∧
    (((add_to_taken_queue items account_id email status taken_value now).filter
        fun it => it.id = account_id).length = 1) ∧
    (∀ other : PyVal, other ≠ account_id →
      ((add_to_taken_queue items account_id email status taken_value now).filter
          fun it => it.id = other) =
        items.filter fun it => it.id = other) := by
  refine ⟨?_, ?_, ?_, ?_⟩
  · simp [add_to_taken_queue]
  · intro it hit hid
    rcases List.mem_append.mp hit with h | h
    · exact absurd hid (by simpa using List.of_mem_filter h)
    · simpa using h
  · simp only [add_to_taken_queue, List.filter_append, List.length_append,
      List.filter_filter]
    have h1 : (items.filter fun it =>
        decide (it.id = account_id) && decide (it.id ≠ account_id)) = [] := by
      refine List.filter_eq_nil_iff.mpr ?_
      intro a _
      by_cases h : a.id = account_id <;> simp [h]
    rw [h1]
    simp
  · intro other hother
    simp only [add_to_taken_queue, List.filter_append, List.filter_filter]
    have h2 : (List.filter (fun it => decide (it.id = other))
        [({ id := account_id, email := email, status := status,
            taken := taken_value, added_at := now } : TakenItem)]) = [] := by
      simp [Ne.symm hother]
    have h3 : (items.filter fun it =>
          decide (it.id = other) && decide (it.id ≠ account_id)) =
        items.filter fun it => it.id = other := by
      refine List.filter_congr ?_
      intro a _
      by_cases h : a.id = other
      · subst h
        simp [hother]
      · simp [h]
    rw [h3, h2]
    simp

/-- C7 witness: enqueueing id 7 over a queue holding an older entry for id 7
and one for id 8 keeps exactly one entry for id 7. -/
theorem C7_add_to_taken_queue_spec_witness :
    ((add_to_taken_queue
        [{ id := .str "7", email := "old@x.com", status := "AMOUNT_TAKEN",
           taken := "100", added_at := 0 },
         { id := .str "8", email := "b@x.com", status := "DISABLED",
           taken := "50", added_at := 1 }]
        (.str "7") "seven@x.com" "AMOUNT_TAKEN" "1500" 2).filter
      fun it => it.id = PyVal.str "7").length = 1 :=
  (C7_add_to_taken_queue_spec
    [{ id := .str "7", email := "old@x.com", status := "AMOUNT_TAKEN",
       taken := "100", added_at := 0 },
     { id := .str "8", email := "b@x.com", status := "DISABLED",
       taken := "50", added_at := 1 }]
    (.str "7") "seven@x.com" "AMOUNT_TAKEN" "1500" 2).2.2.1

/-- C10: `get_account_by_id` compares identifiers after coercing both sides
to strings, returns the first cached record whose id matches, returns `none`
on an absent cache, an empty cache or no match, and numeric and string
representations of the same identifier are interchangeable. -/
theorem C10_get_account_by_id_spec :
    (∀ q : PyVal, get_account_by_id none q = none) ∧
    (∀ q : PyVal, get_account_by_id (some []) q = none) ∧
    (∀ (l : List Account) (q : PyVal),
      (get_account_by_id (some l) q = none ↔
        ∀ a ∈ l, pyStr a.idAccount ≠ pyStr q)) ∧
    (∀ (l : List Account) (q : PyVal) (a : Account),
      get_account_by_id (some l) q = some a →
      a ∈ l ∧ pyStr a.idAccount = pyStr q) ∧
    (∀ (l1 l2 : List Account) (a : Account) (q : PyVal),
      pyStr a.idAccount = pyStr q →
      (∀ b ∈ l1, pyStr b.idAccount ≠ pyStr q) →
      get_account_by_id (some (l1 ++ a :: l2)) q = some a) ∧
    (∀ (cache : Option (List Account)) (n : Int),
      get_account_by_id cache (.int n) =
        get_account_by_id cache (.str (toString n))) := by
  have hbody : ∀ (x : Account) (xs : List Account) (q : PyVal),
      get_account_by_id (some (x :: xs)) q =
        (x :: xs).find? fun a => pyStr a.idAccount == pyStr q := by
    intro x xs q
    rfl
  refine ⟨fun _ => rfl, fun _ => rfl, ?_, ?_, ?_, ?_⟩
  · intro l q
    cases l with
    | nil => simp [get_account_by_id]
    | cons x xs =>
        rw [hbody]
        rw [List.find?_eq_none]
        simp
  · intro l q a h
    cases l with
    | nil => exact absurd h (by simp [get_account_by_id])
    | cons x xs =>
        rw [hbody] at h
        refine ⟨List.mem_of_find?_eq_some h, ?_⟩
        have := List.find?_some h
        simpa using this
  · intro l1 l2 a q ha hl1
    induction l1 with
    | nil =>
        rw [List.nil_append, hbody]
        rw [List.find?_cons_of_pos _ (by simpa using ha)]
    | cons b bs ih =>
        have hb : pyStr b.idAccount ≠ pyStr q := hl1 b (by simp)
        have hbs : ∀ c ∈ bs, pyStr c.idAccount ≠ pyStr q := fun c hc =>
          hl1 c (by simp [hc])
        rw [List.cons_append, hbody]
        rw [List.find?_cons_of_neg _ (by simpa using hb)]
        have hrest := ih hbs
        cases hysp : bs ++ a :: l2 with
        | nil => exact absurd hysp (by simp)
        | cons y ys =>
            rw [hysp] at hrest
            rw [hbody] at hrest
            exact hrest
  · intro cache n
    cases cache with
    | none => rfl
    | some l => cases l <;> rfl

/-- C10 witness: a lookup with the integer 10 finds the first record whose
string id field is `"10"`, skipping a non-matching record. -/
theorem C10_get_account_by_id_spec_witness :
    get_account_by_id (some [exAvailableOther, exAvailableG]) (.int 10) =
      some exAvailableG :=
  C10_get_account_by_id_spec.2.2.2.2.1 [exAvailableOther] [] exAvailableG
    (.int 10) (by decide) (by decide)

/-- C4 witness: activating a new id on an already-active concrete state keeps
the original start time. -/
theorem C4_activate_burst_mode_characterization_witness :
    (activate_burst_mode exBurstState (.str "C") 42).burst_mode_started =
      exBurstState.burst_mode_started :=
  (C4_activate_burst_mode_characterization exBurstState (.str "C") 42).2.2.2.1
    rfl

/-- Auxiliary: one discovery step only grows the id set. -/
theorem discovery_step_ids_mono (g : String) (c : Option Int)
    (st : DiscoveryState) (a : Account) :
    st.existing_ids ⊆ (discovery_step g c st a).existing_ids := by
  unfold discovery_step
  split_ifs
  · exact fun _ h => h
  · exact fun _ h => Finset.mem_insert_of_mem h

/-- Auxiliary: the whole discovery scan only grows the id set. -/
theorem auto_discovery_ids_mono (g : String) (c : Option Int)
    (accounts : List Account) (st : DiscoveryState) :
    st.existing_ids ⊆ (auto_discovery g c accounts st).existing_ids := by
  induction accounts generalizing st with
  | nil => exact fun _ h => h
  | cons a rest ih =>
      exact fun i hi =>
        ih (discovery_step g c st a) (discovery_step_ids_mono g c st a hi)

/-- Auxiliary: the discovery scan never removes a tracked record. -/
theorem auto_discovery_monitored_mono (g : String) (c : Option Int)
    (accounts : List Account) (st : DiscoveryState) :
    ∀ t ∈ st.monitored, t ∈ (auto_discovery g c accounts st).monitored := by
  induction accounts generalizing st with
  | nil => exact fun _ h => h
  | cons a rest ih =>
      intro t ht
      refine ih (discovery_step g c st a) t ?_
      unfold discovery_step
      split_ifs
      · exact ht
      · exact List.mem_append_left _ ht

/-- Auxiliary: every id the discovery scan adds to the id set comes with a
freshly appended tracked record with source `"manual"` and status
`AVAILABLE`. -/
theorem auto_discovery_new_ids_tracked (g : String) (c : Option Int)
    (accounts : List Account) (st : DiscoveryState) :
    ∀ i ∈ (auto_discovery g c accounts st).existing_ids,
      i ∈ st.existing_ids ∨
      ∃ t ∈ (auto_discovery g c accounts st).monitored,
        t.account_id = i ∧ t.source = originSystemDiscovered ∧
        t.last_known_status = "AVAILABLE" := by
  induction accounts generalizing st with
  | nil => exact fun _ hi => .inl hi
  | cons a rest ih =>
      intro i hi
      rcases ih (discovery_step g c st a) i hi with h | h
      · by_cases hc : pyFalsy a.idAccount = true ∨
            a.idAccount ∈ st.existing_ids ∨
            pyUpper a.Status ≠ "AVAILABLE" ∨ a.Group ≠ g
        · rw [discovery_step, if_pos hc] at h
          exact .inl h
        · rw [discovery_step, if_neg hc] at h
          rcases Finset.mem_insert.mp h with h | h
          · right
            subst h
            refine ⟨{ email := a.Sender, account_id := a.idAccount,
                      last_known_status := "AVAILABLE",
                      chat_id := c.getD 0,
                      source := originSystemDiscovered }, ?_, rfl, rfl, rfl⟩
            refine auto_discovery_monitored_mono g c rest
              (discovery_step g c st a) _ ?_
            rw [discovery_step, if_neg hc]
            exact List.mem_append_right _ (by simp)
          · exact .inl h
      · exact .inr h

/-- Auxiliary: every record of the snapshot carrying a non-falsy id, the
upper-cased status `AVAILABLE` and the target group ends the scan with its id
in the id set. -/
theorem auto_discovery_covers (g : String) (c : Option Int)
    (accounts : List Account) (st : DiscoveryState) :
    ∀ a ∈ accounts, pyFalsy a.idAccount = false →
      pyUpper a.Status = "AVAILABLE" → a.Group = g →
      a.idAccount ∈ (auto_discovery g c accounts st).existing_ids := by
  induction accounts generalizing st with
  | nil => simp
  | cons b rest ih =>
      intro a ha hf hs hg
      rcases List.mem_cons.mp ha with h | h
      · subst h
        have hstep : a.idAccount ∈ (discovery_step g c st a).existing_ids := by
          unfold discovery_step
          split_ifs with hc
          · rcases hc with h1 | h1 | h1 | h1
            · rw [hf] at h1
              exact absurd h1 (by simp)
            · exact h1
            · exact absurd hs h1
            · exact absurd hg h1
          · exact Finset.mem_insert_self _ _
        exact auto_discovery_ids_mono g c rest (discovery_step g c st a) hstep
      · exact ih (discovery_step g c st b) a h hf hs hg

/-- Auxiliary: every tracked record the discovery scan appends corresponds to
a snapshot record with upper-cased status `AVAILABLE` and the target group. -/
theorem auto_discovery_monitored_sound (g : String) (c : Option Int)
    (accounts : List Account) (st : DiscoveryState) :
    ∀ t ∈ (auto_discovery g c accounts st).monitored,
      t ∈ st.monitored ∨
      ∃ a ∈ accounts, t.account_id = a.idAccount ∧
        pyUpper a.Status = "AVAILABLE" ∧ a.Group = g := by
  induction accounts generalizing st with
  | nil => exact fun _ ht => .inl ht
  | cons b rest ih =>
      intro t ht
      rcases ih (discovery_step g c st b) t ht with h | h
      · by_cases hc : pyFalsy b.idAccount = true ∨
            b.idAccount ∈ st.existing_ids ∨
            pyUpper b.Status ≠ "AVAILABLE" ∨ b.Group ≠ g
        · rw [discovery_step, if_pos hc] at h
          exact .inl h
        · rw [discovery_step, if_neg hc] at h
          push_neg at hc
          rcases List.mem_append.mp h with h | h
          · exact .inl h
          · right
            refine ⟨b, by simp, ?_⟩
            have ht' : t = { email := b.Sender, account_id := b.idAccount,
                             last_known_status := "AVAILABLE",
                             chat_id := c.getD 0,
                             source := originSystemDiscovered } := by
              simpa using h
            subst ht'
            exact ⟨rfl, hc.2.2.1, hc.2.2.2⟩
      · rcases h with ⟨a, hmem, hrest⟩
        exact .inr ⟨a, List.mem_cons_of_mem b hmem, hrest⟩

/-- C5: in the discovery step of a reconciliation cycle, every snapshot
record not already tracked whose upper-cased status is `AVAILABLE` and whose
group exactly equals the target group is added as a tracked record with
source `"manual"` (the origin tag the source stores for system-discovered
records); and a record whose group differs from the target group (for every
snapshot record carrying its id) is never auto-tracked. -/
theorem C5_auto_discovery_spec (g : String) (c : Option Int)
    (accounts : List Account) (st : DiscoveryState) :
    (∀ a ∈ accounts, pyFalsy a.idAccount = false →
      pyUpper a.Status = "AVAILABLE" → a.Group = g →
      a.idAccount ∉ st.existing_ids →
      ∃ t ∈ (auto_discovery g c accounts st).monitored,
        t.account_id = a.idAccount ∧ t.source = originSystemDiscovered ∧
        t.last_known_status = "AVAILABLE") ∧
    (∀ i : PyVal, (∀ a ∈ accounts, a.idAccount = i → a.Group ≠ g) →
      ∀ t ∈ (auto_discovery g c accounts st).monitored, t.account_id = i →
        t ∈ st.monitored) := by
  constructor
  · intro a ha hf hs hg hnot
    have hin := auto_discovery_covers g c accounts st a ha hf hs hg
    rcases auto_discovery_new_ids_tracked g c accounts st a.idAccount hin
      with h | h
    · exact absurd h hnot
    · exact h
  · intro i hgroup t ht htid
    rcases auto_discovery_monitored_sound g c accounts st t ht
      with h | ⟨a, hmem, hid, hs, hg⟩
    · exact h
    · exact absurd hg (hgroup a hmem (hid.symm.trans htid))

/-- C5 witness: with target group `"G"` and an empty tracked set, the record
with id `"10"`, status `AVAILABLE` and group `"G"` is auto-tracked with the
system-discovered origin tag (while the group-`"OTHER"` record is also in the
snapshot). -/
theorem C5_auto_discovery_spec_witness :
    ∃ t ∈ (auto_discovery "G" (some 1) [exAvailableOther, exAvailableG]
        { existing_ids := ∅, monitored := [] }).monitored,
      t.account_id = exAvailableG.idAccount ∧
      t.source = originSystemDiscovered ∧
      t.last_known_status = "AVAILABLE" :=
  (C5_auto_discovery_spec "G" (some 1) [exAvailableOther, exAvailableG]
      { existing_ids := ∅, monitored := [] }).1 exAvailableG (by simp)
    (by decide) (by decide) (by decide) (by simp)

/-- C6 counterexample: a transition to `AMOUNT TAKEN` with the non-positive
numeric Taken value `"-5"` skips the enqueue, but no invalid-value log runs:
the warning sits in the `except` branch and a non-positive parse does not
raise, so the skip is silent — refuting "skipped with a log" for non-positive
values. -/
theorem C6_counterexample :
    (handle_status_change [] (.str "7") "seven@x.com" "AMOUNT TAKEN"
      exNegativeTaken 0).taken_queue = [] ∧
    (handle_status_change [] (.str "7") "seven@x.com" "AMOUNT TAKEN"
      exNegativeTaken 0).logged_invalid_taken = false := by
  constructor <;> decide

/-- C6 (amended): on a status change into `AMOUNT TAKEN` or `DISABLED`, an
extraction item carrying the record's Taken value is enqueued exactly when
that value parses as a number and is strictly positive; a non-numeric value
is skipped with the invalid-value warning, a non-positive numeric value is
skipped silently; in every case the new status is persisted and the
notification sent, and the branch is total (the cycle does not fail). -/
theorem C6_handle_status_change_amended (queue : List TakenItem)
    (account_id : PyVal) (email current_status : String) (info : Account)
    (now : ℚ)
    (hst : current_status = "AMOUNT TAKEN" ∨ current_status = "DISABLED") :
    (∀ v, pyFloat? info.Taken = some v → 0 < v →
      (handle_status_change queue account_id email current_status info
          now).taken_queue =
        add_to_taken_queue queue account_id email
          (current_status.replace " " "_") info.Taken now ∧
      (handle_status_change queue account_id email current_status info
          now).logged_invalid_taken = false) ∧
    (∀ v, pyFloat? info.Taken = some v → ¬0 < v →
      (handle_status_change queue account_id email current_status info
          now).taken_queue = queue ∧
      (handle_status_change queue account_id email current_status info
          now).logged_invalid_taken = false) ∧
    (pyFloat? info.Taken = none →
      (handle_status_change queue account_id email current_status info
          now).taken_queue = queue ∧
      (handle_status_change queue account_id email current_status info
          now).logged_invalid_taken = true) ∧
    (handle_status_change queue account_id email current_status info
        now).persisted_status = current_status ∧
    (handle_status_change queue account_id email current_status info
        now).notified = true := by
  refine ⟨?_, ?_, ?_, rfl, rfl⟩
  · intro v hv hpos
    constructor <;>
      simp [handle_status_change, if_pos hst, hv, hpos]
  · intro v hv hpos
    constructor <;>
      simp [handle_status_change, if_pos hst, hv, hpos]
  · intro hv
    constructor <;>
      simp [handle_status_change, if_pos hst, hv]

/-- C6 witness: a transition to `AMOUNT TAKEN` with Taken `"1500"` enqueues
the extraction item with the underscored status kind and that value. -/
theorem C6_handle_status_change_amended_witness :
    (handle_status_change [] (.str "7") "seven@x.com" "AMOUNT TAKEN"
        exTaken1500 0).taken_queue =
      add_to_taken_queue [] (.str "7") "seven@x.com"
        ("AMOUNT TAKEN".replace " " "_") exTaken1500.Taken 0 ∧
    (handle_status_change [] (.str "7") "seven@x.com" "AMOUNT TAKEN"
        exTaken1500 0).logged_invalid_taken = false :=
  (C6_handle_status_change_amended [] (.str "7") "seven@x.com" "AMOUNT TAKEN"
    exTaken1500 0 (Or.inl rfl)).1 1500 (by decide) (by decide)

/-- Auxiliary: when no lookup of the trace observes a final status, the
Phase-B loop exhausts its budget holding the result of the last executed
lookup (the initial record when the trace is empty). -/
theorem phaseB_loop_exhausted_of_no_final (lookups : List (Option Account))
    (a0 : Option Account)
    (h : ∀ r : Account, some r ∈ lookups → pyUpper r.Status ∉ FINAL_STATUSES) :
    phaseB_loop lookups a0 = .exhausted (lookups.getLastD a0) := by
  induction lookups generalizing a0 with
  | nil => rfl
  | cons x rest ih =>
      cases x with
      | none =>
          rw [List.getLastD_cons]
          exact ih none fun r hr => h r (List.mem_cons_of_mem _ hr)
      | some r =>
          have hnf : pyUpper r.Status ∉ FINAL_STATUSES := h r (by simp)
          rw [List.getLastD_cons]
          show (if pyUpper r.Status ∈ FINAL_STATUSES then
              PhaseBOutcome.finalStatus r
            else phaseB_loop rest (some r)) = _
          rw [if_neg hnf]
          exact ih (some r) fun r' hr' => h r' (List.mem_cons_of_mem _ hr')

/-- C8 (amended): when the Phase-B attempt budget is exhausted while every
observed status is still non-final, the loop ends holding the result of the
*last* executed lookup; the epilogue deactivates burst (clearing the flag and
removing only this session's id), re-applies the admission check (upper-cased
status `AVAILABLE` and exact group match, creating a `"bot"`-origin tracked
record if it passes) against that last lookup result, and returns success iff
the last lookup observed a record — a record observed earlier in the session
but absent from the final lookup yields failure. -/
theorem C8_exhaustion_amended (lookups : List (Option Account)) (a0 : Account)
    (s : SmartCacheState) (monitored : List TrackedAccount) (email : String)
    (account_id : PyVal) (chat_id : Int) (g : String)
    (h : ∀ r : Account, some r ∈ lookups →
      pyUpper r.Status ∉ FINAL_STATUSES) :
    phaseB_loop lookups (some a0) =
      .exhausted (lookups.getLastD (some a0)) ∧
    (∀ last : Option Account,
      (exhaustion_epilogue s monitored email account_id chat_id g
          last).cache.burst_mode_active = false ∧
      (exhaustion_epilogue s monitored email account_id chat_id g
          last).cache.burst_targets = s.burst_targets.erase account_id ∧
      (exhaustion_epilogue s monitored email account_id chat_id g
          last).success = last.isSome ∧
      (exhaustion_epilogue s monitored email account_id chat_id g
          last).result = last ∧
      (∀ info, last = some info →
        (pyUpper info.Status = "AVAILABLE" ∧ info.Group = g →
          (exhaustion_epilogue s monitored email account_id chat_id g
              last).monitored = monitored ++
            [{ email := email, account_id := account_id,
               last_known_status := pyUpper info.Status, chat_id := chat_id,
               source := originExternallyRequested }]) ∧
        (¬(pyUpper info.Status = "AVAILABLE" ∧ info.Group = g) →
          (exhaustion_epilogue s monitored email account_id chat_id g
              last).monitored = monitored)) ∧
      (last = none →
        (exhaustion_epilogue s monitored email account_id chat_id g
            last).monitored = monitored)) := by
  constructor
  · exact phaseB_loop_exhausted_of_no_final lookups (some a0) h
  · intro last
    cases last with
    | none =>
        refine ⟨rfl, rfl, rfl, rfl, ?_, fun _ => rfl⟩
        intro info hinfo
        exact absurd hinfo (by simp)
    | some info0 =>
        refine ⟨rfl, rfl, rfl, rfl, ?_, fun hn => absurd hn (by simp)⟩
        intro info hinfo
        have : info0 = info := by simpa using hinfo
        subst this
        constructor
        · intro hadm
          simp [exhaustion_epilogue, admission_add, if_pos hadm]
        · intro hadm
          simp [exhaustion_epilogue, admission_add, if_neg hadm]

/-- C8 witness: a session whose single Phase-B lookup observes a transitional
record exhausts its budget holding that record. -/
theorem C8_exhaustion_amended_witness :
    phaseB_loop [some exLogging] (some exLogging) =
      .exhausted ([some exLogging].getLastD (some exLogging)) :=
  (C8_exhaustion_amended [some exLogging] exLogging SmartCacheState.init []
    "seven@x.com" (.str "7") 1 "G"
    (by intro r hr; simp at hr; subst hr; decide)).1

/-- C8 counterexample: a record is observed during the session (first
lookup), but the last lookup returns nothing; the loop exhausts holding
`none` and the epilogue returns failure — refuting "returns success if a
record was ever observed during the session". -/
theorem C8_counterexample :
    (([some exLogging, none].any fun o => o.isSome) = true) ∧
    phaseB_loop [some exLogging, none] (some exLogging) = .exhausted none ∧
    (exhaustion_epilogue SmartCacheState.init [] "seven@x.com" (.str "7") 1
      "G" none).success = false := by
  refine ⟨rfl, by decide, rfl⟩

/-- C9 counterexample: the session teardown does flip the global burst flag
off: on a concrete state with burst active and a second target still in the
set, `burst_mode_active` is false afterwards — refuting "does not flip the
global burst-active flag off". -/
theorem C9_counterexample :
    exBurstState.burst_mode_active = true ∧
    (session_finish_burst exBurstState (.str "A")).burst_mode_active =
      false :=
  ⟨rfl, rfl⟩

/-- C9 (amended): a finishing watch session removes only its own identifier
from the burst target set (every other target stays) and sets the global
burst-active flag to false, leaving the cache contents, timestamps, TTL and
start time untouched; clearing the *entire* target set is done only by the
time-based expiry check, which either leaves the state unchanged or
deactivates and empties the whole set. -/
theorem C9_session_finish_burst_amended (s : SmartCacheState) (id : PyVal) :
    (session_finish_burst s id).burst_mode_active = false ∧
    (session_finish_burst s id).burst_targets = s.burst_targets.erase id ∧
    (∀ j ∈ s.burst_targets, j ≠ id →
      j ∈ (session_finish_burst s id).burst_targets) ∧
    (session_finish_burst s id).cache = s.cache ∧
    (session_finish_burst s id).cache_timestamp = s.cache_timestamp ∧
    (session_finish_burst s id).cache_ttl = s.cache_ttl ∧
    (session_finish_burst s id).burst_mode_started = s.burst_mode_started ∧
    (∀ now : ℚ, check_burst_mode s now = s ∨
      ((check_burst_mode s now).burst_mode_active = false ∧
        (check_burst_mode s now).burst_targets = ∅)) := by
  refine ⟨rfl, rfl, ?_, rfl, rfl, rfl, rfl, ?_⟩
  · intro j hj hne
    exact Finset.mem_erase.mpr ⟨hne, hj⟩
  · intro now
    rcases hb : s.burst_mode_active
    · left
      simp [check_burst_mode, hb]
    · rcases hs : s.burst_mode_started with _ | started
      · left
        simp [check_burst_mode, hb, hs]
      · by_cases hd : BURST_MODE_DURATION ≤ now - started
        · right
          constructor <;> simp [check_burst_mode, hb, hs, hd]
        · left
          simp [check_burst_mode, hb, hs, hd]

/-- C9 witness: on a concrete state with targets A and B, finishing the
session for A keeps B in the target set. -/
theorem C9_session_finish_burst_amended_witness :
    PyVal.str "B" ∈
      (session_finish_burst exBurstState (.str "A")).burst_targets :=
  (C9_session_finish_burst_amended exBurstState (.str "A")).2.2.1
    (.str "B") (by decide) (by decide)

end Werkeir
